import Mathlib

/-!
Verification of the krostar/test assertion library, package
internal/message (customizeASTExprRepr, FromBool), internal/code
(GetPackageAST) and the assertion surface (logResult, Assert, Require).

The Go AST nodes and the type information attached to them by the
type-checker are embedded shallowly: each expression node carries the
facts the rewriter reads from pkg.TypesInfo (whether the static type of
the node is a basic bool, the constant boolean value when the
type-checker recorded one, and the printed type name).
-/

/-- Binary operators (go/token) that customizeASTExprRepr inspects. -/
inductive GoOp where
  | land | lor | eql | neq | gtr | lss | geq | leq | otherOp
deriving Repr, DecidableEq

/-- Unary operators (go/token) that customizeASTExprRepr inspects. -/
inductive UnOp where
  | not | arrow | otherU
deriving Repr, DecidableEq

/-- Result of pkg.TypesInfo.ObjectOf on an identifier. -/
inductive IdentObj where
  /-- the identifier is bound to a variable (*types.Var) -/
  | var (name : String)
  /-- the identifier is bound to a constant (*types.Const);
      universeScope records obj.Parent() == types.Universe -/
  | const (name : String) (universeScope : Bool)
  /-- the identifier is the predeclared nil (*types.Nil) -/
  | nilObj
  /-- ObjectOf returned nil -/
  | noObj
  /-- any other object kind -/
  | otherObj
deriving Repr, DecidableEq

/-- Type-checker facts attached to an expression node, as read through
pkg.TypesInfo by the helpers of internal/message. -/
structure Ann where
  /-- TypeOf(expr) is a *types.Basic of kind Bool or UntypedBool -/
  isBoolBasic : Bool := false
  /-- Types[expr].Value when it is a boolean constant, none otherwise -/
  constBool : Option Bool := none
  /-- the printed form of TypeOf(expr), used by the errors.As rendering -/
  typeName : String := ""
deriving Repr, DecidableEq

/-- The shape of the Fun field of a call expression, together with the
result of getIdentSelector on the relevant identifier:
some (pkgPath, name) on success, none when ObjectOf is nil. -/
inductive CallFun where
  /-- Fun is an *ast.FuncLit; text is its re-serialized form -/
  | funcLit (text : String)
  /-- Fun is an *ast.Ident -/
  | identFun (name : String) (sel : Option (String × String))
  /-- Fun is an *ast.SelectorExpr; text is its re-serialized form -/
  | selectorFun (text : String) (sel : Option (String × String))
  /-- any other Fun shape -/
  | otherFun (text : String)
deriving Repr, DecidableEq

/-- Shallow embedding of the ast.Expr shapes customizeASTExprRepr
distinguishes. Shapes outside its type switch are collapsed into
`unsupported` carrying their re-serialized text. -/
inductive GoExpr where
  | selector (text : String) (a : Ann)
  | ident (name : String) (obj : IdentObj) (a : Ann)
  | binary (op : GoOp) (x y : GoExpr) (a : Ann)
  | unary (op : UnOp) (x : GoExpr) (a : Ann)
  | paren (x : GoExpr) (a : Ann)
  | call (fn : CallFun) (args : List GoExpr) (funRetOnlyError : Bool) (a : Ann)
  | unsupported (text : String) (a : Ann)

/-- The annotation carried by a node. -/
def GoExpr.annOf : GoExpr → Ann
  | .selector _ a => a
  | .ident _ _ a => a
  | .binary _ _ _ a => a
  | .unary _ _ a => a
  | .paren _ a => a
  | .call _ _ _ a => a
  | .unsupported _ a => a

/-- Printed text of the Fun node of a call, as format.Node would emit it. -/
def funText : CallFun → String
  | .funcLit text => text
  | .identFun name _ => name
  | .selectorFun text _ => text
  | .otherFun text => text

/-- Operator spelling used when re-serializing a binary expression. -/
def opText : GoOp → String
  | .land => "&&"
  | .lor => "||"
  | .eql => "=="
  | .neq => "!="
  | .gtr => ">"
  | .lss => "<"
  | .geq => ">="
  | .leq => "<="
  | .otherOp => "?"

mutual
/-- Model of genericASTExprToString: re-serialize the node back to
source-like text the way go/format.Node prints it. -/
def genericASTExprToString : GoExpr → String
  | .selector text _ => text
  | .ident name _ _ => name
  | .binary op x y _ =>
      genericASTExprToString x ++ " " ++ opText op ++ " " ++ genericASTExprToString y
  | .unary .not x _ => "!" ++ genericASTExprToString x
  | .unary .arrow x _ => "<-" ++ genericASTExprToString x
  | .unary .otherU x _ => "?" ++ genericASTExprToString x
  | .paren x _ => "(" ++ genericASTExprToString x ++ ")"
  | .call fn args _ _ => funText fn ++ "(" ++ genericASTArgsToString args ++ ")"
  | .unsupported text _ => text

/-- Comma-separated serialization of the argument list of a call. -/
def genericASTArgsToString : List GoExpr → String
  | [] => ""
  | [e] => genericASTExprToString e
  | e :: rest => genericASTExprToString e ++ ", " ++ genericASTArgsToString rest
end

/-- isExprNil: the expression is an identifier whose object is *types.Nil. -/
def isExprNil : GoExpr → Bool
  | .ident _ .nilObj _ => true
  | _ => false

/-- isExprBool: TypeOf(expr) is a basic Bool or UntypedBool. -/
def isExprBool (e : GoExpr) : Bool := e.annOf.isBoolBasic

/-- isExprFunc: the expression is an *ast.CallExpr. -/
def isExprFunc : GoExpr → Bool
  | .call .. => true
  | _ => false

/-- isExprFuncReturningOnlyError: the expression is a call whose Fun has a
signature type with exactly one result identical to the built-in error. -/
def isExprFuncReturningOnlyError : GoExpr → Bool
  | .call _ _ funRetOnlyError _ => funRetOnlyError
  | _ => false

/-- mustGetExprBoolValue: the constant boolean value the type-checker
recorded for the expression. In Go this function PANICS when the value
is absent; the absence is modelled as none and the caller of this model
turns none into a panic outcome. -/
def mustGetExprBoolValue (e : GoExpr) : Option Bool := e.annOf.constBool

/-- %t formatting of a Go bool. -/
def boolStr (b : Bool) : String := if b then "true" else "false"

/-- Outcome of customizeASTExprRepr: a rendered string, a returned
error value, or a runtime panic. -/
inductive ROut where
  | ok (s : String)
  | error (e : String)
  | panicked (e : String)
deriving Repr, DecidableEq

/-- %T-style tag of a shape, used in error messages. -/
def shapeName : GoExpr → String
  | .selector .. => "*ast.SelectorExpr"
  | .ident .. => "*ast.Ident"
  | .binary .. => "*ast.BinaryExpr"
  | .unary .. => "*ast.UnaryExpr"
  | .paren .. => "*ast.ParenExpr"
  | .call .. => "*ast.CallExpr"
  | .unsupported .. => "*ast.CompositeLit"

/-- The shapes of expr.X for which the token.NOT case of
customizeASTExprRepr recurses with flipped polarity
(*ast.CallExpr, *ast.Ident, *ast.ParenExpr, *ast.UnaryExpr). -/
def isNotRecursableShape : GoExpr → Bool
  | .call .. => true
  | .ident .. => true
  | .paren .. => true
  | .unary .. => true
  | _ => false

/-- The EQL/NEQ branch of customizeASTExprRepr, transcribing the Go
switch case by case. resultIsEqual is
(op == EQL && result) || (op == NEQ && !result). -/
def renderEqNeq (x y : GoExpr) (resultIsEqual result : Bool) : ROut :=
  let xs := genericASTExprToString x
  let ys := genericASTExprToString y
  let xIsFunc := isExprFunc x
  let xIsFuncRetErr := isExprFuncReturningOnlyError x
  let yIsNil := isExprNil y
  let yIsBool := isExprBool y
  if xIsFunc && xIsFuncRetErr && yIsNil && resultIsEqual then
    .ok (xs ++ " returned no error")
  else if xIsFunc && xIsFuncRetErr && yIsNil && !resultIsEqual then
    .ok (xs ++ " returned an error")
  else if xIsFunc && yIsNil && resultIsEqual then
    .ok (xs ++ " returned nil")
  else if xIsFunc && yIsNil && !resultIsEqual then
    .ok (xs ++ " returned not nil")
  else if xIsFunc && yIsBool then
    .ok (xs ++ " returned " ++ boolStr result)
  else if !xIsFunc && yIsNil && resultIsEqual then
    .ok (xs ++ " is nil")
  else if !xIsFunc && yIsNil && !resultIsEqual then
    .ok (xs ++ " is not nil")
  else if !xIsFunc && yIsBool && resultIsEqual then
    match mustGetExprBoolValue y with
    | some b => .ok (xs ++ " is " ++ boolStr b)
    | none => .panicked "type not found or value is not a bool"
  else if !xIsFunc && yIsBool && !resultIsEqual then
    match mustGetExprBoolValue y with
    | some b => .ok (xs ++ " is not " ++ boolStr b)
    | none => .panicked "type not found or value is not a bool"
  else if resultIsEqual then
    .ok (xs ++ " is equal to " ++ ys)
  else
    .ok (xs ++ " is not equal to " ++ ys)

/-- The table of well-known boolean-producing functions in the
*ast.CallExpr case, dispatched on the resolved (package path, name). -/
def renderKnownCall (p t : String) (args : List GoExpr) (callText : String)
    (result : Bool) : ROut :=
  match p, t with
  | "slices", "Contains" | "strings", "Contains" =>
    match args with
    | a :: b :: _ =>
      if result then
        .ok (genericASTExprToString a ++ " contains " ++ genericASTExprToString b)
      else
        .ok (genericASTExprToString a ++ " does not contain " ++ genericASTExprToString b)
    | _ => .panicked "index out of range"
  | "bytes", "Equal" | "maps", "Equal" | "reflect", "DeepEqual" | "slices", "Equal" =>
    match args with
    | a :: b :: _ =>
      if result then
        .ok (genericASTExprToString a ++ " is equal to " ++ genericASTExprToString b)
      else
        .ok (genericASTExprToString a ++ " is not equal to " ++ genericASTExprToString b)
    | _ => .panicked "index out of range"
  | "errors", "Is" =>
    match args with
    | a :: b :: _ =>
      if result then
        .ok (genericASTExprToString a ++ "\u0027s error tree contains " ++ genericASTExprToString b)
      else
        .ok (genericASTExprToString b ++ " is not in the error tree of " ++ genericASTExprToString a)
    | _ => .panicked "index out of range"
  | "errors", "As" =>
    match args with
    | a :: b :: _ =>
      if result then
        .ok (genericASTExprToString a ++ " can be defined as " ++ b.annOf.typeName)
      else
        .ok (genericASTExprToString a ++ " cannot be defined as " ++ b.annOf.typeName)
    | _ => .panicked "index out of range"
  | _, _ => .ok ("function " ++ callText ++ " returned " ++ boolStr result)

/-- Model of customizeASTExprRepr (internal/message): the polarity-aware
recursive rewriter. result is the polarity for the current node. -/
def customizeASTExprRepr (result : Bool) (expr : GoExpr) : ROut :=
  match expr with
  | .binary op x y _ =>
    match op with
    | .land =>
      match customizeASTExprRepr result x with
      | .ok xr =>
        match customizeASTExprRepr result y with
        | .ok yr => .ok (xr ++ (if result then ", and " else ", or ") ++ yr)
        | .error e => .error ("unable to get LAND/LOR Y custom repr: " ++ e)
        | .panicked e => .panicked e
      | .error e => .error ("unable to get LAND/LOR X custom repr: " ++ e)
      | .panicked e => .panicked e
    | .lor =>
      match customizeASTExprRepr result x with
      | .ok xr =>
        match customizeASTExprRepr result y with
        | .ok yr => .ok (xr ++ (if result then ", or " else ", and ") ++ yr)
        | .error e => .error ("unable to get LAND/LOR Y custom repr: " ++ e)
        | .panicked e => .panicked e
      | .error e => .error ("unable to get LAND/LOR X custom repr: " ++ e)
      | .panicked e => .panicked e
    | .eql => renderEqNeq x y result result
    | .neq => renderEqNeq x y (!result) result
    | .gtr =>
      .ok (genericASTExprToString x
        ++ (if result then " is greater than " else " is less than or equal to ")
        ++ genericASTExprToString y)
    | .leq =>
      .ok (genericASTExprToString x
        ++ (if result then " is less than or equal to " else " is greater than ")
        ++ genericASTExprToString y)
    | .geq =>
      .ok (genericASTExprToString x
        ++ (if result then " is greater than or equal to " else " is less than ")
        ++ genericASTExprToString y)
    | .lss =>
      .ok (genericASTExprToString x
        ++ (if result then " is less than " else " is greater than or equal to ")
        ++ genericASTExprToString y)
    | .otherOp => .error "unhandled binary operator"
  | .call fn args funRetOnlyError a =>
    match fn with
    | .funcLit lit =>
      .ok (genericASTExprToString (.call (.funcLit lit) args funRetOnlyError a)
        ++ " returned " ++ boolStr result)
    | .identFun name sel =>
      match sel with
      | none => .error "unable to get func ident selector: ident object is nil"
      | some (p, t) =>
        renderKnownCall p t args
          (genericASTExprToString (.call (.identFun name sel) args funRetOnlyError a)) result
    | .selectorFun text sel =>
      match sel with
      | none => .error "unable to get func.Sel selector: ident object is nil"
      | some (p, t) =>
        renderKnownCall p t args
          (genericASTExprToString (.call (.selectorFun text sel) args funRetOnlyError a)) result
    | .otherFun _ => .error "unhandled function type"
  | .ident _ obj a =>
    match obj with
    | .var vname => .ok ("var " ++ vname ++ " is " ++ boolStr result)
    | .const cname universeScope =>
      if a.isBoolBasic && universeScope then .ok ("literal " ++ cname)
      else .ok ("const " ++ cname ++ " is " ++ boolStr result)
    | _ => .error "unexpected ident obj"
  | .paren x _ => customizeASTExprRepr result x
  | .selector text _ => .ok (text ++ " is " ++ boolStr result)
  | .unary op x _ =>
    match op with
    | .not =>
      if isNotRecursableShape x then customizeASTExprRepr (!result) x
      else .error ("unhandled unary expr operator " ++ shapeName x)
    | .arrow => customizeASTExprRepr result x
    | .otherU => .error "unhandled unary operator"
  | .unsupported _ _ => .error ("unhandled expr type " ++ shapeName expr)

/-- The located caller call expression handed back by GetCallerCallExpr:
an *ast.CallExpr, i.e. a Fun together with its argument list. -/
structure CallNode where
  fn : CallFun
  args : List GoExpr
  funRetOnlyError : Bool := false
  a : Ann := {}

/-- The call node viewed as an expression, for re-serialization. -/
def CallNode.toExpr (c : CallNode) : GoExpr :=
  .call c.fn c.args c.funRetOnlyError c.a

/-- The argument-selection switch of FromBool (len(expr.Args)):
one argument is a custom-check invocation whose sole argument is the
subject, two or more select the second argument, zero is an error. -/
def selectSubjectArg (args : List GoExpr) : Except String GoExpr :=
  match args with
  | [a] => .ok a
  | _ :: b :: _ => .ok b
  | [] => .error "unexpected call expr arguments number 0"

/-- Outcome of the effectful steps FromBool performs before rendering:
runtime.Caller, code.GetPackageAST, code.GetCallerCallExpr. -/
inductive FromBoolEnv where
  /-- runtime.Caller reported no caller information -/
  | noCallerInfo
  /-- code.GetPackageAST failed with this error text -/
  | astLoadFailed (e : String)
  /-- code.GetCallerCallExpr failed with this error text -/
  | callExprNotFound (e : String)
  /-- the caller call expression was located -/
  | located (c : CallNode)

/-- Result of FromBool: a message with no error, a message (possibly
empty) together with a non-nil error, or a propagated panic. -/
inductive FromBoolOut where
  | ok (msg : String)
  | fail (msg : String) (err : String)
  | panicked (e : String)
deriving Repr, DecidableEq

/-- Model of message.FromBool: resolve the caller call expression,
select the subject argument, render it, and fall back to the raw
re-serialized call text only when rendering fails. -/
def FromBool (env : FromBoolEnv) (result : Bool) : FromBoolOut :=
  match env with
  | .noCallerInfo => .fail "" "no caller information available"
  | .astLoadFailed e => .fail "" ("unable to get package AST: " ++ e)
  | .callExprNotFound e => .fail "" ("unable to get call expr from caller: " ++ e)
  | .located c =>
    match selectSubjectArg c.args with
    | .error e => .fail "" e
    | .ok arg =>
      match customizeASTExprRepr result arg with
      | .ok s => .ok s
      | .error e =>
        .fail (genericASTExprToString c.toExpr) ("unable to get arg repr: " ++ e)
      | .panicked e => .panicked e

/-- The import-path to package mapping produced by one parse
(packages are collapsed to identifiers). -/
abbrev PkgMap := List (String × String)

/-- The global AST cache state: the directory-keyed cache plus a count
of how many times the underlying parse step ran (for observing
re-parses). -/
structure ASTCacheState where
  cache : List (String × PkgMap)
  parseCount : Nat
deriving Repr, DecidableEq

/-- Lookup of a directory in the cache association list. -/
def lookupCache : List (String × PkgMap) → String → Option PkgMap
  | [], _ => none
  | (k, v) :: rest, d => if k == d then some v else lookupCache rest d

/-- Model of code.GetPackageAST: return the cached mapping on a hit;
on a miss run the injected parse step (ParsePackageAST), cache the
mapping only on success, and propagate the error on failure. -/
def GetPackageAST (parse : String → Except String PkgMap)
    (s : ASTCacheState) (dir : String) : Except String PkgMap × ASTCacheState :=
  match lookupCache s.cache dir with
  | some m => (.ok m, s)
  | none =>
    match parse dir with
    | .error e =>
      (.error ("unable to parse caller package: " ++ e),
       { s with parseCount := s.parseCount + 1 })
    | .ok m =>
      (.ok m,
       { cache := (dir, m) :: s.cache, parseCount := s.parseCount + 1 })

/-- A Go value passed through the msgAndArgs variadic parameter:
either a string (the only type the empty-message drop and the
format-string branch recognize) or any other value carried by its
%v formatting. -/
inductive GoVal where
  | str (s : String)
  | other (v : String)
deriving Repr, DecidableEq

/-- %v formatting of a single value. -/
def valV : GoVal → String
  | .str s => s
  | .other v => v

/-- %v formatting of a []any slice: space-joined elements in brackets. -/
def sliceV (args : List GoVal) : String :=
  "[" ++ String.intercalate " " (args.map valV) ++ "]"

/-- The empty-first-message drop at the top of logResult:
if len(msgAndArgs) > 0 and msgAndArgs[0] == "" then drop it. -/
def dropEmptyFirst : List GoVal → List GoVal
  | .str "" :: rest => rest
  | l => l

/-- The msgAndArgs switch of logResult: one argument is appended in
brackets via %v whatever its type; with more arguments a leading string
is used as a format for the rest, and a leading non-string appends the
%v form of the whole slice. sprintf is the injected fmt.Sprintf. -/
def formatMsgAndArgs (sprintf : String → List GoVal → String)
    (msg : String) (args : List GoVal) : String :=
  match args with
  | [] => msg
  | [a] => msg ++ " [" ++ valV a ++ "]"
  | a :: rest =>
    match a with
    | .str f => msg ++ " [" ++ sprintf f rest ++ "]"
    | .other _ => msg ++ " " ++ sliceV (a :: rest)

/-- The environment logResult runs in: the success-message toggles and
the injected outcome of message.FromBool (message, optional error). -/
structure LogEnv where
  successMessageEnabled : Bool
  flagEnableSuccess : Bool
  fromBool : String × Option String
deriving Repr, DecidableEq

/-- The body of logResult after the empty-first-message drop
(lines computing and emitting the message). Returns the list of lines
logged through t.Logf, in order. -/
def logResultCore (sprintf : String → List GoVal → String)
    (env : LogEnv) (result : Bool) (msgAndArgs : List GoVal) : List String :=
  if (result && (env.successMessageEnabled || env.flagEnableSuccess)) || !result then
    let internal : List String :=
      match env.fromBool.2 with
      | some e => ["krostar/test internal failure: unable to get assertion message: " ++ e]
      | none => []
    let msg := formatMsgAndArgs sprintf env.fromBool.1 msgAndArgs
    internal ++ (if msg == "" then [] else
      [(if result then "Success: " else "Error: ") ++ msg])
  else []

/-- Model of logResult: drop a leading empty string message argument,
then format and log. -/
def logResult (sprintf : String → List GoVal → String)
    (env : LogEnv) (result : Bool) (msgAndArgs : List GoVal) : List String :=
  logResultCore sprintf env result (dropEmptyFirst msgAndArgs)

/-- Model of Assert: log the result, fail (without aborting) when it is
false, and return it. Components: lines logged, whether t.Fail was
called, the returned value. -/
def Assert (sprintf : String → List GoVal → String)
    (env : LogEnv) (result : Bool) (msgAndArgs : List GoVal) :
    List String × Bool × Bool :=
  (logResult sprintf env result msgAndArgs, !result, result)

/-- Model of Require: log the result and abort (FailNow) when it is
false. Components: lines logged, whether t.FailNow was called. -/
def Require (sprintf : String → List GoVal → String)
    (env : LogEnv) (result : Bool) (msgAndArgs : List GoVal) :
    List String × Bool :=
  (logResult sprintf env result msgAndArgs, !result)

/-- A variable identifier of boolean type, as used in the repository
tests. -/
def varBoolE (n : String) : GoExpr := .ident n (.var n) { isBoolBasic := true }

/-- A variable identifier of non-boolean type. -/
def varE (n : String) : GoExpr := .ident n (.var n) {}

/-- The universe-scope boolean literal true/false identifier. -/
def boolLitE (b : Bool) : GoExpr :=
  .ident (boolStr b) (.const (boolStr b) true) { isBoolBasic := true, constBool := some b }

/-- The predeclared nil identifier. -/
def nilE : GoExpr := .ident "nil" .nilObj {}

/-- A call f() through a plain identifier bound in the test package. -/
def callE (n : String) (retOnlyError : Bool) : GoExpr :=
  .call (.identFun n (some ("github.com/krostar/test/internal/message", n))) [] retOnlyError {}

example : customizeASTExprRepr true
    (.binary .land (varBoolE "i") (varBoolE "j") { isBoolBasic := true })
    = .ok "var i is true, and var j is true" := rfl

example : customizeASTExprRepr false
    (.binary .land (varBoolE "i") (varBoolE "j") { isBoolBasic := true })
    = .ok "var i is false, or var j is false" := rfl

example : customizeASTExprRepr true
    (.binary .lor (varBoolE "i") (varBoolE "j") { isBoolBasic := true })
    = .ok "var i is true, or var j is true" := rfl

example : customizeASTExprRepr false
    (.binary .lor (varBoolE "i") (varBoolE "j") { isBoolBasic := true })
    = .ok "var i is false, and var j is false" := rfl

example : customizeASTExprRepr true
    (.binary .eql (varE "a") (varE "b") { isBoolBasic := true })
    = .ok "a is equal to b" := rfl

example : customizeASTExprRepr false
    (.binary .eql (varE "a") (varE "b") { isBoolBasic := true })
    = .ok "a is not equal to b" := rfl

example : customizeASTExprRepr false
    (.binary .eql (callE "f" false) (boolLitE false) { isBoolBasic := true })
    = .ok "f() returned false" := rfl

example : customizeASTExprRepr true
    (.binary .eql (callE "f" true) nilE { isBoolBasic := true })
    = .ok "f() returned no error" := rfl

example : customizeASTExprRepr false
    (.binary .eql (callE "f" true) nilE { isBoolBasic := true })
    = .ok "f() returned an error" := rfl

example : customizeASTExprRepr true
    (.binary .eql (callE "f" false) nilE { isBoolBasic := true })
    = .ok "f() returned nil" := rfl

example : customizeASTExprRepr false
    (.binary .eql (callE "f" false) nilE { isBoolBasic := true })
    = .ok "f() returned not nil" := rfl

example : customizeASTExprRepr true
    (.binary .eql (varE "a") nilE { isBoolBasic := true })
    = .ok "a is nil" := rfl

example : customizeASTExprRepr true
    (.binary .neq (varE "a") nilE { isBoolBasic := true })
    = .ok "a is not nil" := rfl

example : customizeASTExprRepr true
    (.binary .eql (varBoolE "b") (boolLitE false) { isBoolBasic := true })
    = .ok "b is false" := rfl

example : customizeASTExprRepr true
    (.binary .neq (varBoolE "b") (boolLitE true) { isBoolBasic := true })
    = .ok "b is not true" := rfl

example : customizeASTExprRepr true
    (.binary .gtr (varE "n1") (varE "n2") { isBoolBasic := true })
    = .ok "n1 is greater than n2" := rfl

example : customizeASTExprRepr false
    (.binary .gtr (varE "n1") (varE "n2") { isBoolBasic := true })
    = .ok "n1 is less than or equal to n2" := rfl

example : customizeASTExprRepr true
    (.binary .geq (varE "n1") (varE "n2") { isBoolBasic := true })
    = .ok "n1 is greater than or equal to n2" := rfl

example : customizeASTExprRepr false
    (.binary .geq (varE "n1") (varE "n2") { isBoolBasic := true })
    = .ok "n1 is less than n2" := rfl

example : customizeASTExprRepr true
    (.binary .lss (varE "n1") (varE "n2") { isBoolBasic := true })
    = .ok "n1 is less than n2" := rfl

example : customizeASTExprRepr false
    (.binary .lss (varE "n1") (varE "n2") { isBoolBasic := true })
    = .ok "n1 is greater than or equal to n2" := rfl

example : customizeASTExprRepr true
    (.binary .leq (varE "n1") (varE "n2") { isBoolBasic := true })
    = .ok "n1 is less than or equal to n2" := rfl

example : customizeASTExprRepr false
    (.binary .leq (varE "n1") (varE "n2") { isBoolBasic := true })
    = .ok "n1 is greater than n2" := rfl

example : customizeASTExprRepr true
    (.call (.selectorFun "errors.Is" (some ("errors", "Is")))
      [varE "anError", varE "errBoom"] false { isBoolBasic := true })
    = .ok "anError\u0027s error tree contains errBoom" := rfl

example : customizeASTExprRepr false
    (.call (.selectorFun "errors.Is" (some ("errors", "Is")))
      [varE "anError", varE "errBoom"] false { isBoolBasic := true })
    = .ok "errBoom is not in the error tree of anError" := rfl

example : customizeASTExprRepr true
    (.call (.selectorFun "strings.Contains" (some ("strings", "Contains")))
      [.unsupported "\"foo\"" {}, .unsupported "\"bar\"" {}] false { isBoolBasic := true })
    = .ok "\"foo\" contains \"bar\"" := rfl

example : customizeASTExprRepr true
    (.call (.selectorFun "os.IsExist" (some ("os", "IsExist")))
      [nilE] false { isBoolBasic := true })
    = .ok "function os.IsExist(nil) returned true" := rfl

example : customizeASTExprRepr true (boolLitE true) = .ok "literal true" := rfl

example : customizeASTExprRepr false (boolLitE false) = .ok "literal false" := rfl

example : customizeASTExprRepr true (varBoolE "i") = .ok "var i is true" := rfl

example : customizeASTExprRepr true
    (.ident "i" (.const "i" false) { isBoolBasic := true, constBool := some false })
    = .ok "const i is true" := rfl

example : customizeASTExprRepr true
    (.selector "foo.value" { isBoolBasic := true })
    = .ok "foo.value is true" := rfl

example : customizeASTExprRepr false
    (.unary .not (varBoolE "i") { isBoolBasic := true })
    = .ok "var i is true" := rfl

example : customizeASTExprRepr true
    (.unary .not
      (.paren (.binary .gtr (.unsupported "21" {}) (.unsupported "42" {}) { isBoolBasic := true })
        { isBoolBasic := true })
      { isBoolBasic := true })
    = .ok "21 is less than or equal to 42" := rfl

example : customizeASTExprRepr true
    (.unary .arrow (varBoolE "b") { isBoolBasic := true })
    = .ok "var b is true" := rfl

/-- Appending a closing parenthesis never yields the empty string. -/
theorem append_rparen_ne_empty (s : String) : s ++ ")" ≠ "" := by
  intro h
  have hlen := congrArg String.length h
  rw [String.length_append] at hlen
  rw [show String.length ")" = 1 from rfl] at hlen
  rw [show String.length "" = 0 from rfl] at hlen
  omega

/-- C1: for a logical AND, both operands are rendered recursively under
the same polarity as the whole expression and joined with ", and " when
the polarity is true and ", or " when it is false; for a logical OR the
joiners are swapped. -/
theorem c1_logical_joiners (r : Bool) (x y : GoExpr) (a : Ann) (xr yr : String)
    (hx : customizeASTExprRepr r x = .ok xr)
    (hy : customizeASTExprRepr r y = .ok yr) :
    customizeASTExprRepr r (.binary .land x y a)
      = .ok (xr ++ (if r then ", and " else ", or ") ++ yr)
    ∧ customizeASTExprRepr r (.binary .lor x y a)
      = .ok (xr ++ (if r then ", or " else ", and ") ++ yr) := by
  constructor <;> simp [customizeASTExprRepr, hx, hy]

/-- Witness for C1 at concrete inputs: two boolean variables joined by
AND and by OR under polarity true. -/
theorem c1_logical_joiners_witness :
    customizeASTExprRepr true
        (.binary .land (varBoolE "i") (varBoolE "j") { isBoolBasic := true })
      = .ok "var i is true, and var j is true"
    ∧ customizeASTExprRepr true
        (.binary .lor (varBoolE "i") (varBoolE "j") { isBoolBasic := true })
      = .ok "var i is true, or var j is true" := by
  have h := c1_logical_joiners true (varBoolE "i") (varBoolE "j")
    { isBoolBasic := true } "var i is true" "var j is true" rfl rfl
  exact ⟨h.1, h.2⟩

/-- C2: the wording of an ordering comparison is chosen by combining
operator and polarity: (GTR, true) and (LEQ, false) render
"is greater than"; (LSS, true) and (GEQ, false) render "is less than";
(GEQ, true) and (LSS, false) render "is greater than or equal to";
(LEQ, true) and (GTR, false) render "is less than or equal to"; hence
rendering with polarity true agrees with rendering the logical negation
with polarity false. -/
theorem c2_ordering_renderings (x y : GoExpr) (a a2 : Ann) :
    (customizeASTExprRepr true (.binary .gtr x y a)
      = .ok (genericASTExprToString x ++ " is greater than " ++ genericASTExprToString y))
  ∧ (customizeASTExprRepr false (.binary .leq x y a)
      = .ok (genericASTExprToString x ++ " is greater than " ++ genericASTExprToString y))
  ∧ (customizeASTExprRepr true (.binary .lss x y a)
      = .ok (genericASTExprToString x ++ " is less than " ++ genericASTExprToString y))
  ∧ (customizeASTExprRepr false (.binary .geq x y a)
      = .ok (genericASTExprToString x ++ " is less than " ++ genericASTExprToString y))
  ∧ (customizeASTExprRepr true (.binary .geq x y a)
      = .ok (genericASTExprToString x ++ " is greater than or equal to " ++ genericASTExprToString y))
  ∧ (customizeASTExprRepr false (.binary .lss x y a)
      = .ok (genericASTExprToString x ++ " is greater than or equal to " ++ genericASTExprToString y))
  ∧ (customizeASTExprRepr true (.binary .leq x y a)
      = .ok (genericASTExprToString x ++ " is less than or equal to " ++ genericASTExprToString y))
  ∧ (customizeASTExprRepr false (.binary .gtr x y a)
      = .ok (genericASTExprToString x ++ " is less than or equal to " ++ genericASTExprToString y))
  ∧ customizeASTExprRepr true (.binary .gtr x y a)
      = customizeASTExprRepr false (.binary .leq x y a2)
  ∧ customizeASTExprRepr true (.binary .lss x y a)
      = customizeASTExprRepr false (.binary .geq x y a2)
  ∧ customizeASTExprRepr true (.binary .geq x y a)
      = customizeASTExprRepr false (.binary .lss x y a2)
  ∧ customizeASTExprRepr true (.binary .leq x y a)
      = customizeASTExprRepr false (.binary .gtr x y a2) :=
  ⟨rfl, rfl, rfl, rfl, rfl, rfl, rfl, rfl, rfl, rfl, rfl, rfl⟩

/-- C3: evaluation of the rewriter on an equality whose left side is not
a call and whose right side is a boolean. With a compile-time-constant
right side the actual constant value is substituted, but with a
non-constant boolean right side the code reaches mustGetExprBoolValue
and PANICS instead of falling back to the generic
"is equal to" rendering expected by the claim and by the package tests. -/
theorem c3_nonconstant_bool_comparison_panics :
    customizeASTExprRepr true
        (.binary .eql (varBoolE "b1") (varBoolE "b2") { isBoolBasic := true })
      = .panicked "type not found or value is not a bool"
    ∧ customizeASTExprRepr true
        (.binary .eql (varBoolE "b") (boolLitE false) { isBoolBasic := true })
      = .ok "b is false"
    ∧ customizeASTExprRepr true
        (.binary .neq (varBoolE "b") (boolLitE true) { isBoolBasic := true })
      = .ok "b is not true" := ⟨rfl, rfl, rfl⟩

/-- C4 counterexample: a zero-argument call expression is not treated as
a custom-check with a subject; FromBool errors out on it. -/
theorem c4_counterexample_zero_args :
    selectSubjectArg ([] : List GoExpr) = .error "unexpected call expr arguments number 0" := rfl

/-- C4 amended: a call with exactly one argument is a custom-check
whose sole argument is the subject; a call with two or more arguments
selects the second positional argument (never the first); a call with
zero arguments yields an error and no subject. -/
theorem c4_subject_selection (a b : GoExpr) (rest : List GoExpr)
    (fn : CallFun) (re : Bool) (an : Ann) (r : Bool) :
    selectSubjectArg [a] = .ok a
  ∧ selectSubjectArg (a :: b :: rest) = .ok b
  ∧ selectSubjectArg ([] : List GoExpr) = .error "unexpected call expr arguments number 0"
  ∧ FromBool (.located { fn := fn, args := [], funRetOnlyError := re, a := an }) r
      = .fail "" "unexpected call expr arguments number 0" :=
  ⟨rfl, rfl, rfl, rfl⟩

/-- C5 counterexample: when caller-info lookup fails, FromBool returns
the EMPTY string (not the re-serialized call text) together with the
error, contradicting the claim that every failure yields the raw call
text and never an empty message. -/
theorem c5_counterexample_empty_on_resolution_failure :
    FromBool .noCallerInfo true = .fail "" "no caller information available" := rfl

/-- C5 amended: caller-info, package-AST and call-resolution failures
return an empty message with a non-nil error; only a rendering failure
returns the fallback string (the raw re-serialized text of the whole
call expression, which is never empty) with a non-nil error. -/
theorem c5_fallback_only_on_render_failure (r : Bool) (e : String)
    (c : CallNode) (arg : GoExpr)
    (hsel : selectSubjectArg c.args = .ok arg)
    (hrender : customizeASTExprRepr r arg = .error e) :
    FromBool .noCallerInfo r = .fail "" "no caller information available"
  ∧ FromBool (.astLoadFailed e) r = .fail "" ("unable to get package AST: " ++ e)
  ∧ FromBool (.callExprNotFound e) r
      = .fail "" ("unable to get call expr from caller: " ++ e)
  ∧ FromBool (.located c) r
      = .fail (genericASTExprToString c.toExpr) ("unable to get arg repr: " ++ e)
  ∧ genericASTExprToString c.toExpr ≠ "" := by
  refine ⟨rfl, rfl, rfl, ?_, ?_⟩
  · simp [FromBool, hsel, hrender]
  · rw [show genericASTExprToString c.toExpr
      = (funText c.fn ++ "(" ++ genericASTArgsToString c.args) ++ ")" from rfl]
    exact append_rparen_ne_empty _

/-- A concrete located call node, Assert(t, T\x7b\x7d), whose subject
argument is an unsupported composite literal. -/
def assertCallW : CallNode :=
  { fn := .identFun "Assert" (some ("github.com/krostar/test", "Assert")),
    args := [varE "t", .unsupported "T\x7b\x7d" {}],
    funRetOnlyError := false,
    a := {} }

/-- Witness for C5 at the concrete call Assert(t, T\x7b\x7d) whose
subject is an unsupported composite literal: rendering fails and the
raw call text comes back with the wrapped error. -/
theorem c5_fallback_only_on_render_failure_witness :
    FromBool (.located assertCallW) true
      = .fail "Assert(t, T\x7b\x7d)"
          ("unable to get arg repr: unhandled expr type *ast.CompositeLit")
    ∧ genericASTExprToString assertCallW.toExpr ≠ "" := by
  have h := c5_fallback_only_on_render_failure true
    "unhandled expr type *ast.CompositeLit" assertCallW
    (.unsupported "T\x7b\x7d" {}) rfl rfl
  exact ⟨h.2.2.2.1, h.2.2.2.2⟩

/-- C6: a call errors.Is(errw, err) renders with the first argument
before the second under polarity true (errw followed by "error tree contains" and err)
and with the second before the first under polarity false
("err is not in the error tree of errw"), for both selector-based and
identifier-based references to errors.Is. -/
theorem c6_errors_is_rendering (a b : GoExpr) (rest : List GoExpr)
    (text name : String) (re : Bool) (an : Ann) :
    customizeASTExprRepr true
        (.call (.selectorFun text (some ("errors", "Is"))) (a :: b :: rest) re an)
      = .ok (genericASTExprToString a ++ "\u0027s error tree contains " ++ genericASTExprToString b)
  ∧ customizeASTExprRepr false
        (.call (.selectorFun text (some ("errors", "Is"))) (a :: b :: rest) re an)
      = .ok (genericASTExprToString b ++ " is not in the error tree of " ++ genericASTExprToString a)
  ∧ customizeASTExprRepr true
        (.call (.identFun name (some ("errors", "Is"))) (a :: b :: rest) re an)
      = .ok (genericASTExprToString a ++ "\u0027s error tree contains " ++ genericASTExprToString b)
  ∧ customizeASTExprRepr false
        (.call (.identFun name (some ("errors", "Is"))) (a :: b :: rest) re an)
      = .ok (genericASTExprToString b ++ " is not in the error tree of " ++ genericASTExprToString a) :=
  ⟨rfl, rfl, rfl, rfl⟩

/-- C7: parentheses and the receive operator are transparent (same
polarity); negation recurses with flipped polarity exactly on call,
identifier, parenthesized and unary operands and errors on every other
shape; double wrappers compose back to the identity. -/
theorem c7_wrapper_transparency (r : Bool) (e : GoExpr) (a a1 a2 : Ann) :
    customizeASTExprRepr r (.paren e a) = customizeASTExprRepr r e
  ∧ customizeASTExprRepr r (.unary .arrow e a) = customizeASTExprRepr r e
  ∧ customizeASTExprRepr r (.unary .not e a)
      = (if isNotRecursableShape e then customizeASTExprRepr (!r) e
         else .error ("unhandled unary expr operator " ++ shapeName e))
  ∧ customizeASTExprRepr r (.paren (.paren e a1) a2) = customizeASTExprRepr r e
  ∧ customizeASTExprRepr r (.unary .not (.unary .not e a1) a2)
      = (if isNotRecursableShape e then customizeASTExprRepr r e
         else .error ("unhandled unary expr operator " ++ shapeName e)) := by
  refine ⟨rfl, rfl, rfl, rfl, ?_⟩
  cases r <;> rfl

/-- C8: a cache hit returns the cached mapping with the state unchanged
(so the parse step never runs again); a successful call populates the
cache; a cached directory survives later calls on any directory; a
failed parse returns an error, leaves the cache unchanged and only
bumps the parse counter; after a failure a later call re-attempts a
fresh parse and can succeed. -/
theorem c8_cache_behavior :
    (∀ parse parse2 (s : ASTCacheState) dir m s2,
        GetPackageAST parse s dir = (.ok m, s2) →
        GetPackageAST parse2 s2 dir = (.ok m, s2))
  ∧ (∀ parse (s : ASTCacheState) dir m,
        lookupCache s.cache dir = some m →
        GetPackageAST parse s dir = (.ok m, s))
  ∧ (∀ parse (s : ASTCacheState) dir m s2,
        GetPackageAST parse s dir = (.ok m, s2) →
        lookupCache s2.cache dir = some m)
  ∧ (∀ parse (s : ASTCacheState) dir dir2 m,
        lookupCache s.cache dir = some m →
        lookupCache ((GetPackageAST parse s dir2).2).cache dir = some m)
  ∧ (∀ parse (s : ASTCacheState) dir e,
        lookupCache s.cache dir = none → parse dir = .error e →
        GetPackageAST parse s dir
          = (.error ("unable to parse caller package: " ++ e),
             { cache := s.cache, parseCount := s.parseCount + 1 }))
  ∧ (∀ parse parse2 (s : ASTCacheState) dir e m,
        lookupCache s.cache dir = none → parse dir = .error e →
        parse2 dir = .ok m →
        GetPackageAST parse2 (GetPackageAST parse s dir).2 dir
          = (.ok m, { cache := (dir, m) :: s.cache, parseCount := s.parseCount + 2 })) := by
  have hhit : ∀ parse (s : ASTCacheState) dir m,
      lookupCache s.cache dir = some m →
      GetPackageAST parse s dir = (.ok m, s) := by
    intro parse s dir m h
    simp [GetPackageAST, h]
  have hpop : ∀ parse (s : ASTCacheState) dir m s2,
      GetPackageAST parse s dir = (.ok m, s2) →
      lookupCache s2.cache dir = some m := by
    intro parse s dir m s2 h
    unfold GetPackageAST at h
    cases hl : lookupCache s.cache dir with
    | some m0 =>
      rw [hl] at h
      injection h with h1 h2
      injection h1 with h1
      subst h1; subst h2
      exact hl
    | none =>
      rw [hl] at h
      cases hp : parse dir with
      | error e => rw [hp] at h; exact absurd h (by simp)
      | ok m1 =>
        rw [hp] at h
        injection h with h1 h2
        injection h1 with h1
        subst h1; subst h2
        simp [lookupCache]
  refine ⟨?_, hhit, hpop, ?_, ?_, ?_⟩
  · intro parse parse2 s dir m s2 h
    exact hhit parse2 s2 dir m (hpop parse s dir m s2 h)
  · intro parse s dir dir2 m h
    unfold GetPackageAST
    cases hl : lookupCache s.cache dir2 with
    | some m0 => exact h
    | none =>
      have hne : (dir2 == dir) = false := by
        rcases eq_or_ne dir2 dir with heq | hne
        · subst heq; rw [h] at hl; exact absurd hl (by simp)
        · simp [hne]
      cases hp : parse dir2 with
      | error e => exact h
      | ok m2 => simp [lookupCache, hne, h]
  · intro parse s dir e h1 h2
    simp [GetPackageAST, h1, h2]
  · intro parse parse2 s dir e m h1 h2 h3
    have hstep : GetPackageAST parse s dir
        = (.error ("unable to parse caller package: " ++ e),
           { cache := s.cache, parseCount := s.parseCount + 1 }) := by
      simp [GetPackageAST, h1, h2]
    rw [hstep]
    simp [GetPackageAST, h1, h3]

/-- Witness for C8 at concrete inputs: a successful parse is cached and
returned unchanged on the next call; a failing parse returns an error
leaving the cache empty; the retry with a working parse succeeds. -/
theorem c8_cache_behavior_witness :
    GetPackageAST (fun _ => .ok [("p", "pkg")])
        ((GetPackageAST (fun _ => .ok [("p", "pkg")]) { cache := [], parseCount := 0 } "dir").2) "dir"
      = (.ok [("p", "pkg")],
         (GetPackageAST (fun _ => .ok [("p", "pkg")]) { cache := [], parseCount := 0 } "dir").2)
  ∧ GetPackageAST (fun _ => .error "boom") { cache := [], parseCount := 0 } "dir"
      = (.error "unable to parse caller package: boom", { cache := [], parseCount := 1 })
  ∧ GetPackageAST (fun _ => .ok [("p", "pkg")])
        ((GetPackageAST (fun _ => .error "boom") { cache := [], parseCount := 0 } "dir").2) "dir"
      = (.ok [("p", "pkg")], { cache := [("dir", [("p", "pkg")])], parseCount := 2 }) := by
  refine ⟨?_, ?_, ?_⟩
  · exact c8_cache_behavior.1 (fun _ => .ok [("p", "pkg")]) (fun _ => .ok [("p", "pkg")])
      { cache := [], parseCount := 0 } "dir" [("p", "pkg")] _ rfl
  · exact c8_cache_behavior.2.2.2.2.1 (fun _ => .error "boom")
      { cache := [], parseCount := 0 } "dir" "boom" rfl rfl
  · exact c8_cache_behavior.2.2.2.2.2 (fun _ => .error "boom") (fun _ => .ok [("p", "pkg")])
      { cache := [], parseCount := 0 } "dir" "boom" [("p", "pkg")] rfl rfl rfl

/-- C9: a leading empty-string message argument is dropped before
formatting, in logResult and hence in Assert and Require; the suffix is
built only from the remaining arguments, and with no remaining argument
no brackets are appended at all. -/
theorem c9_empty_first_message_dropped (sprintf : String → List GoVal → String)
    (env : LogEnv) (r : Bool) (rest : List GoVal) (m : String) :
    dropEmptyFirst (.str "" :: rest) = rest
  ∧ logResult sprintf env r (.str "" :: rest) = logResultCore sprintf env r rest
  ∧ Assert sprintf env r (.str "" :: rest) = (logResultCore sprintf env r rest, !r, r)
  ∧ Require sprintf env r (.str "" :: rest) = (logResultCore sprintf env r rest, !r)
  ∧ formatMsgAndArgs sprintf m [] = m :=
  ⟨rfl, rfl, rfl, rfl, rfl⟩

/-- C10: with two or more message arguments whose first is not a string,
the %v form of the whole argument slice is appended (the format function
is never consulted); with exactly one argument it is appended in square
brackets whatever its type; concretely a false assertion with arguments
(42, "hello") logs "Error: literal false [42 hello]". -/
theorem c10_non_string_first_message (sprintf : String → List GoVal → String)
    (m v : String) (b : GoVal) (rest : List GoVal) (a : GoVal) :
    formatMsgAndArgs sprintf m (.other v :: b :: rest)
      = m ++ " " ++ sliceV (.other v :: b :: rest)
  ∧ formatMsgAndArgs sprintf m [a] = m ++ " [" ++ valV a ++ "]"
  ∧ logResult (fun f _ => f)
        { successMessageEnabled := false, flagEnableSuccess := false,
          fromBool := ("literal false", none) }
        false [.other "42", .str "hello"]
      = ["Error: literal false [42 hello]"] :=
  ⟨rfl, rfl, rfl⟩
